import Mathlib

/-!
Shallow embedding of the trading-card farmer (src/src/main.ts).

The program logs a Steam account in, scrapes the paginated badges listing
into a list of games that still have trading-card drops, and cycles an
idle/quit loop over (at most) the first 27 of them, temporarily flipping
the profile to private while idling.  The HTML/DOM extraction, the HTTP
transport and the provider protocol are external collaborators; they are
represented here by structured values (a badge row carries the fields the
DOM queries extract, a fetch attempt carries the pages the server would
serve or the access obstacle it answered with).  All control flow, all
filtering and all bookkeeping of the source are translated directly.
-/

/-- Constant MAX_GAMES_TO_IDLE of class CardFarmer (main.ts line 32). -/
def MAX_GAMES_TO_IDLE : Nat := 27

/-- Constant TIMEOUT_BETWEEN_CHECKS of class CardFarmer (line 33), in milliseconds. -/
def TIMEOUT_BETWEEN_CHECKS : Nat := 15 * 60000

/-- The GameTradingCards record of main.ts (lines 25-29): one progress item
of the scan.  Field names and order follow the source. -/
structure GameTradingCards where
  appTitle : String
  appId : Nat
  leftCards : Nat
deriving DecidableEq, Repr

/-- One badge row of a badges page, as the DOM queries of getBadges
(lines 239-266) extract it: the text content of the progress_info_bold
node, the appId parsed from the badge_row_overlay href, and the raw title
text.  The HTML/DOM query primitives themselves are an out-of-scope
external collaborator of the spec; the row carries their results. -/
structure BadgeRow where
  progressText : String
  appId : Nat
  appTitle : String
deriving DecidableEq, Repr

/-- One page of the badges listing: the number of pagelink controls in
the first profile_paging node, and the badge rows on the page. -/
structure BadgesPage where
  pagelinks : Nat
  rows : List BadgeRow
deriving DecidableEq, Repr

/-- The regex replace of line 246: strip every non-digit character,
keeping the digits in order. -/
def digitsOnly (s : String) : String :=
  ⟨s.toList.filter Char.isDigit⟩

/-- JS unary plus on a digit string (line 270): its decimal value. -/
def digitStringToNat (s : String) : Nat :=
  s.toList.foldl (fun n c => 10 * n + (c.toNat - 48)) 0

/-- JS String.trim (line 265): strip leading and trailing whitespace. -/
def trimString (s : String) : String :=
  ⟨((s.toList.dropWhile Char.isWhitespace).reverse.dropWhile
      Char.isWhitespace).reverse⟩

/-- Body of the per-row callback of getBadges (lines 239-274): the row is
emitted iff its progress text still holds at least one digit (the JS
truthiness test on the stripped string at line 248) and, when a user
selection was loaded from 2idle.json, its appId is a member of the
selection.  The title is trimmed as at line 265. -/
def processRow (userGames : Option (List Nat)) (row : BadgeRow) :
    Option GameTradingCards :=
  let remainingCards := digitsOnly row.progressText
  if remainingCards = "" then none
  else if (match userGames with
           | none => true
           | some games => games.contains row.appId) then
    some { appTitle := trimString row.appTitle
           appId := row.appId
           leftCards := digitStringToNat remainingCards }
  else none

/-- All rows of one page, processed in document order. -/
def processPage (userGames : Option (List Nat)) (page : BadgesPage) :
    List GameTradingCards :=
  page.rows.filterMap (processRow userGames)

/-- The page loop of getBadges (lines 227-286) on one obstacle-free
attempt: currentPage runs from 1 while currentPage is at most totalPages,
and each fetched page resets totalPages to its pagelink count plus one
(lines 236-237).  The page list is consumed in order, the head being the
page the server serves for currentPage; a page number beyond the served
list renders as an empty page with no rows and no pagination controls,
which contributes no items and makes the loop condition fail at the next
step, so the loop exits with the accumulator unchanged. -/
def scanGo (userGames : Option (List Nat)) :
    List BadgesPage → Nat → Nat → List GameTradingCards →
    List GameTradingCards
  | pages, currentPage, totalPages, acc =>
    if currentPage > totalPages then acc
    else
      match pages with
      | [] => acc
      | page :: rest =>
          scanGo userGames rest (currentPage + 1) (page.pagelinks + 1)
            (acc ++ processPage userGames page)

/-- Entry point of one obstacle-free scan attempt: page 1, an initial
totalPages of 1, and an empty accumulator (lines 224-227). -/
def scanPages (userGames : Option (List Nat)) (pages : List BadgesPage) :
    List GameTradingCards :=
  scanGo userGames pages 1 1 []

/-- The response of POST /parental/ajaxunlock as parentalUnlock sees it
(lines 167-175): the success flag of the response body, and the
Set-Cookie response header when the server sent one (none when absent;
the JS truthiness test on headers at line 172 is presence). -/
structure UnlockResponse where
  success : Bool
  setCookieHeader : Option (List String)
deriving DecidableEq, Repr

/-- The pattern character list starts the haystack character list. -/
def charsStartWith : List Char → List Char → Bool
  | _, [] => true
  | [], _ :: _ => false
  | c :: cs, p :: ps => c == p && charsStartWith cs ps

/-- Some suffix of the haystack starts with the pattern. -/
def charsContain : List Char → List Char → Bool
  | hay, pat =>
    charsStartWith hay pat ||
      (match hay with
       | [] => false
       | _ :: rest => charsContain rest pat)

/-- JS String.indexOf(pat) with a not-minus-one test: substring
containment. -/
def strContains (s pat : String) : Bool :=
  charsContain s.toList pat.toList

/-- The cookie parentalUnlock extracts (lines 172-181): when the provider
reports success and a Set-Cookie header is present, the first cookie of
the header that contains the text steamparental; none in every other
case (the function then logs off and throws). -/
def unlockCookie (resp : UnlockResponse) : Option String :=
  match resp.setCookieHeader with
  | some cookies =>
      if resp.success then
        cookies.find? (fun cookie => strContains cookie "steamparental")
      else none
  | none => none

/-- Outcome of one parentalUnlock call: the cookie store afterwards, the
value returned on the normal path (none when the call threw), and
whether the call logged the Steam client off before throwing. -/
structure UnlockResult where
  jar : List String
  returned : Option String
  loggedOff : Bool
deriving DecidableEq, Repr

/-- parentalUnlock (lines 162-187).  The POST is issued through the
axios client that the constructor wraps around the shared CookieJar
(lines 70-82).  Modelled from the spec: the cookie-storing behaviour of
that wrapped client is external library code (axios-cookiejar-support),
not in src; per the spec the cookie store is shared and append-only
(merge new cookies, never drop existing ones), so the cookies of the
Set-Cookie response header are appended to the jar when the response
arrives, before the function inspects them.  The rest is the source
logic: on success plus a recognizable steamparental cookie the cookie is
returned normally; otherwise the client is logged off and the call
throws the wrong-pin error. -/
def parentalUnlock (jar : List String) (resp : UnlockResponse) :
    UnlockResult :=
  let jarAfter := jar ++ resp.setCookieHeader.getD []
  match unlockCookie resp with
  | some cookie => { jar := jarAfter, returned := some cookie, loggedOff := false }
  | none => { jar := jarAfter, returned := none, loggedOff := true }

/-- One attempt of the badges scan, as the environment answers it: either
every page fetch of the attempt succeeds and the server serves the given
pages in order, or some fetch is rejected with the access obstacle (the
catch at line 275), in which case the rows already accumulated in this
attempt are discarded by the source (the catch returns a fresh recursive
call) and the attached UnlockResponse is what the subsequent
parentalUnlock call would receive. -/
inductive FetchAttempt where
  | pages (served : List BadgesPage)
  | obstacle (unlockResp : UnlockResponse)
deriving DecidableEq, Repr

/-- The ways getBadges can fail: the throw at line 279 when no parental
pin is configured, the wrong-pin throw propagated out of parentalUnlock
(line 186), and the model artifact of an exhausted environment (the
finite attempt list supplies no further answer). -/
inductive ScanError where
  | pinRequired
  | wrongPin
  | exhausted
deriving DecidableEq, Repr

/-- getBadges (lines 223-289).  parentalPin is the stored numeric pin, 0
when absent (line 63); userGames is the optional selection loaded from
2idle.json (lines 85-98).  On an obstacle-free attempt the page loop
returns its accumulated list.  On an obstacle the source logs the wall,
throws pinRequired when the pin is 0, otherwise awaits parentalUnlock
and, when that returns normally, returns a fresh recursive getBadges
call on the rest of the environment; a throwing parentalUnlock
propagates as wrongPin. -/
def getBadges (parentalPin : Nat) (userGames : Option (List Nat)) :
    List FetchAttempt → Except ScanError (List GameTradingCards)
  | [] => Except.error ScanError.exhausted
  | FetchAttempt.pages served :: _ => Except.ok (scanPages userGames served)
  | FetchAttempt.obstacle resp :: rest =>
      if parentalPin = 0 then Except.error ScanError.pinRequired
      else
        match unlockCookie resp with
        | some _ => getBadges parentalPin userGames rest
        | none => Except.error ScanError.wrongPin

/-- Selection of games to idle in _fetchCardsAndPlay (lines 316-327): an
empty scan result idles nothing and closes (none here, no activating
step); a non-empty result idles the slice of the first
MAX_GAMES_TO_IDLE games. -/
def gamesToIdle (gamesWithCards : List GameTradingCards) :
    Option (List GameTradingCards) :=
  if gamesWithCards.length = 0 then none
  else some (gamesWithCards.take MAX_GAMES_TO_IDLE)

/-- The id list handed to gamesPlayed by _idleGames (line 306). -/
def idleAppIds (games : List GameTradingCards) : List Nat :=
  games.map (fun game => game.appId)

/-- Observable state of the CardFarmer instance for the session, console,
visibility and timer claims.  Live timers are tracked by id so that two
simultaneously pending timeouts of the same kind are representable;
handleDelay and handlePrivacy are the ids currently stored in
_delayTimeout and _privacyTimeout (clearTimeout only ever cancels the
stored handle); fresh is the next timeout id setTimeout will hand out. -/
structure FarmerState where
  loggedOn : Bool
  readlineOpen : Bool
  profilePrivate : Bool
  liveDelay : List Nat
  livePrivacy : List Nat
  handleDelay : Option Nat
  handlePrivacy : Option Nat
  fresh : Nat
deriving DecidableEq, Repr

/-- clearTimeout on a stored handle: cancels exactly the timeout the
handle names, when there is one; clearTimeout(undefined) is a no-op. -/
def clearTimeoutOn (live : List Nat) (handle : Option Nat) : List Nat :=
  match handle with
  | some t => live.filter (fun x => x != t)
  | none => live

/-- setTempProfilePrivacy (lines 190-221) against a privacy response with
the given success flag.  A non-success response logs the Steam client
off and throws (lines 206-212) in both directions, leaving the stored
visibility unchanged.  A success response records the requested
visibility, and in the entering-private direction arms the 10 second
revert timeout, storing its id in _privacyTimeout without clearing any
previously stored privacy timeout (line 217). -/
def setTempProfilePrivacy (isPrivate : Bool) (respSuccess : Bool)
    (s : FarmerState) : FarmerState × Except String Unit :=
  if !respSuccess then
    ({ s with loggedOn := false },
      Except.error "unexpected error when setting profile to private!")
  else
    let s1 := { s with profilePrivate := isPrivate }
    if isPrivate then
      ({ s1 with livePrivacy := s1.livePrivacy ++ [s1.fresh]
                 handlePrivacy := some s1.fresh
                 fresh := s1.fresh + 1 },
        Except.ok ())
    else (s1, Except.ok ())

/-- The privacy timeout fires (lines 217-219): the fired timeout is no
longer pending, and the callback invokes setTempProfilePrivacy(false)
discarding the returned promise, so a rejection of the revert is
observed by no caller (the state change, including the logoff of a
failed revert, still happens). -/
def privacyTimerFires (respSuccess : Bool) (t : Nat) (s : FarmerState) :
    FarmerState :=
  (setTempProfilePrivacy false respSuccess
    { s with livePrivacy := s.livePrivacy.filter (fun x => x != t) }).1

/-- Arming of the cycle timer in _fetchCardsAndPlay (lines 335-336): the
stored delay handle is cleared first, then the new timeout is armed and
its id stored. -/
def clearDelayThenArm (s : FarmerState) : FarmerState :=
  let s1 := { s with liveDelay := clearTimeoutOn s.liveDelay s.handleDelay }
  { s1 with liveDelay := s1.liveDelay ++ [s1.fresh]
            handleDelay := some s1.fresh
            fresh := s1.fresh + 1 }

/-- Arming of the inner 10 second cycle timer (line 343), issued inside
the callback of the outer cycle timer with no preceding clearTimeout. -/
def armDelayNoClear (s : FarmerState) : FarmerState :=
  { s with liveDelay := s.liveDelay ++ [s.fresh]
           handleDelay := some s.fresh
           fresh := s.fresh + 1 }

/-- The cycle timeout with id t fires: it is no longer pending. -/
def delayTimerFires (s : FarmerState) (t : Nat) : FarmerState :=
  { s with liveDelay := s.liveDelay.filter (fun x => x != t) }

/-- close (lines 347-356): clearTimeout on the stored delay handle,
clearTimeout on the stored privacy handle, close of the readline
interface, and logOff.  No visibility request is issued. -/
def closeState (s : FarmerState) : FarmerState :=
  { s with liveDelay := clearTimeoutOn s.liveDelay s.handleDelay
           livePrivacy := clearTimeoutOn s.livePrivacy s.handlePrivacy
           readlineOpen := false
           loggedOn := false }

/-- At most one pending cycle timer, and the stored handle names it. -/
def delayInv (s : FarmerState) : Prop :=
  s.liveDelay = [] ∨ ∃ t, s.handleDelay = some t ∧ s.liveDelay = [t]

/-- At most one pending privacy timer, and the stored handle names it. -/
def privacyInv (s : FarmerState) : Prop :=
  s.livePrivacy = [] ∨ ∃ t, s.handlePrivacy = some t ∧ s.livePrivacy = [t]

/-- Modelled from the spec: the fixed persona-state enumeration of the
external session provider (the EPersonaState enum of the steam-user
module, which is not part of src): name and numeric value pairs, the
names capitalized as in that module.  The enum object also carries the
reverse numeric-string keys; those contain no letters and are omitted
here, as the claims concern name lookups. -/
def ePersonaStates : List (String × Nat) :=
  [("Offline", 0), ("Online", 1), ("Busy", 2), ("Away", 3),
   ("Snooze", 4), ("LookingToTrade", 5), ("LookingToPlay", 6),
   ("Invisible", 7)]

/-- The transformation of the state command argument in _handleOnLine
(lines 368-369): the first character as typed (charAt(0)), followed by
the rest of the argument lowercased (slice(1).toLowerCase(), ASCII
lowering, which covers the enumeration names). -/
def normalizePersonaArg (arg : String) : String :=
  match arg.toList with
  | [] => ""
  | c :: rest => ⟨c :: rest.map Char.toLower⟩

/-- The lookup of _handleOnLine (lines 371-377): the first enumeration
entry whose name equals the transformed argument exactly. -/
def findPersonaState (arg : String) : Option (String × Nat) :=
  ePersonaStates.find? (fun p => p.1 = normalizePersonaArg arg)

/-- JS logical-or of two optional strings (the credential fallback in
start, lines 149-155): the left operand unless it is undefined or the
empty string, both falsy. -/
def jsOrStr (a b : Option String) : Option String :=
  match a with
  | some s => if s = "" then b else some s
  | none => b

/-- The logOn details record built by start (lines 149-155). -/
structure LogOnDetails where
  accountName : Option String
  password : Option String
  twoFactorCode : Option String
deriving DecidableEq, Repr

/-- start (lines 149-155): the constructor-stored account name and
password (fields set at lines 61-62) take precedence over the start
arguments through the JS logical-or; the two-factor code is passed
through. -/
def startLogOn (ctorAccountName ctorPassword : Option String)
    (accountName password twoFactorCode : Option String) : LogOnDetails :=
  { accountName := jsOrStr ctorAccountName accountName
    password := jsOrStr ctorPassword password
    twoFactorCode := twoFactorCode }

/-! Concrete demonstration inputs shared by the theorems below. -/

/-- A badge row whose progress text still shows three card drops. -/
def demoRow : BadgeRow :=
  { progressText := "3 card drops remaining", appId := 570,
    appTitle := " Dota 2 " }

/-- A badge row whose progress text renders the digit zero. -/
def zeroRow : BadgeRow :=
  { progressText := "0", appId := 440, appTitle := "Some Game" }

/-- An unlock response reporting success and carrying the parental
session cookie. -/
def goodUnlockResp : UnlockResponse :=
  { success := true, setCookieHeader := some ["steamparental=abc123; Path=/"] }

/-- A farmer state fresh after login: logged on, console open, profile
public, no timers pending. -/
def freshFarmerState : FarmerState :=
  { loggedOn := true, readlineOpen := true, profilePrivate := false,
    liveDelay := [], livePrivacy := [], handleDelay := none,
    handlePrivacy := none, fresh := 0 }

/-- Thirty distinct one-drop games, for exercising the idle slice. -/
def demoGames : List GameTradingCards :=
  (List.range 30).map
    (fun i => { appTitle := "g", appId := i, leftCards := 1 })

/-! Helper lemmas about the scan. -/

/-- A row emitted by processRow had at least one digit in its progress
text, and its leftCards field is the decimal value of those digits. -/
theorem processRow_eq_some (userGames : Option (List Nat)) (r : BadgeRow)
    (g : GameTradingCards) (h : processRow userGames r = some g) :
    digitsOnly r.progressText ≠ "" ∧
      g.leftCards = digitStringToNat (digitsOnly r.progressText) := by
  unfold processRow at h
  by_cases hd : digitsOnly r.progressText = ""
  · simp [hd] at h
  · refine ⟨hd, ?_⟩
    simp only [hd, if_false] at h
    split at h
    · cases h
      rfl
    · cases h

/-- With a selection loaded, processRow keeps exactly the rows it would
emit with no selection whose appId is a member of the selection. -/
theorem processRow_some_selection (s : List Nat) (r : BadgeRow) :
    processRow (some s) r =
      match processRow none r with
      | none => none
      | some g => if s.contains g.appId then some g else none := by
  unfold processRow
  by_cases hd : digitsOnly r.progressText = ""
  · simp [hd]
  · by_cases hc : r.appId ∈ s <;> simp [hd, hc]

/-- Page-level counterpart of processRow_some_selection. -/
theorem processPage_some_selection (s : List Nat) (page : BadgesPage) :
    processPage (some s) page =
      (processPage none page).filter (fun g => s.contains g.appId) := by
  unfold processPage
  induction page.rows with
  | nil => rfl
  | cons r rows ih =>
      rw [List.filterMap_cons, List.filterMap_cons,
        processRow_some_selection s r]
      cases hr : processRow none r with
      | none => simpa using ih
      | some g =>
          by_cases hc : g.appId ∈ s <;> simp [hc, List.filter_cons, ih]

/-- With a selection, the page loop keeps exactly the selected items of
the unfiltered loop, for accumulators related in the same way. -/
theorem scanGo_some_selection (s : List Nat) (pages : List BadgesPage) :
    ∀ currentPage totalPages acc,
      scanGo (some s) pages currentPage totalPages
          (acc.filter (fun g => s.contains g.appId)) =
        (scanGo none pages currentPage totalPages acc).filter
          (fun g => s.contains g.appId) := by
  induction pages with
  | nil =>
      intro cp tp acc
      unfold scanGo
      split
      · rfl
      · rfl
  | cons page rest ih =>
      intro cp tp acc
      unfold scanGo
      split
      · rfl
      · dsimp only
        rw [processPage_some_selection, ← List.filter_append]
        exact ih (cp + 1) (page.pagelinks + 1) (acc ++ processPage none page)

/-- Attempt-level corollary of scanGo_some_selection. -/
theorem scanPages_some_selection (s : List Nat) (pages : List BadgesPage) :
    scanPages (some s) pages =
      (scanPages none pages).filter (fun g => s.contains g.appId) := by
  unfold scanPages
  simpa using scanGo_some_selection s pages 1 1 []

/-- Environment condition for the positivity claim: a rendered remaining
count, when it holds any digit at all, has positive value.  (The live
badges listing renders exhausted badges with no number, so it satisfies
this; a page rendering a literal 0 would not.) -/
def rowRendersPositive (r : BadgeRow) : Bool :=
  (digitsOnly r.progressText == "") ||
    decide (0 < digitStringToNat (digitsOnly r.progressText))

/-- Attempt-level environment condition: every row of every served page
renders positive. -/
def attemptRendersPositive : FetchAttempt → Bool
  | FetchAttempt.pages served =>
      served.all (fun p => p.rows.all rowRendersPositive)
  | FetchAttempt.obstacle _ => true

/-- Every item the page loop accumulates over positive-rendering pages
has positive leftCards, provided the incoming accumulator does. -/
theorem scanGo_positive (userGames : Option (List Nat))
    (pages : List BadgesPage)
    (hp : ∀ p ∈ pages, ∀ r ∈ p.rows, rowRendersPositive r = true) :
    ∀ currentPage totalPages acc, (∀ g ∈ acc, 0 < g.leftCards) →
      ∀ g ∈ scanGo userGames pages currentPage totalPages acc,
        0 < g.leftCards := by
  induction pages with
  | nil =>
      intro cp tp acc hacc g hg
      unfold scanGo at hg
      split at hg
      · exact hacc g hg
      · exact hacc g hg
  | cons page rest ih =>
      intro cp tp acc hacc g hg
      unfold scanGo at hg
      split at hg
      · exact hacc g hg
      · dsimp only at hg
        refine ih (fun p hp' r hr => hp p (List.mem_cons_of_mem _ hp') r hr)
          (cp + 1) (page.pagelinks + 1) _ ?_ g hg
        intro g' hg'
        rcases List.mem_append.mp hg' with hmem | hmem
        · exact hacc g' hmem
        · rcases List.mem_filterMap.mp hmem with ⟨r, hr, hpr⟩
          rcases processRow_eq_some _ _ _ hpr with ⟨hne, hval⟩
          have hrow := hp page (List.mem_cons_self _ _) r hr
          rw [hval]
          simp only [rowRendersPositive, beq_iff_eq, hne,
            decide_eq_true_eq, Bool.or_eq_true, decide_eq_true_iff] at hrow
          rcases hrow with hrow | hrow
          · exact hrow.elim
          · exact hrow

/-- C1, counterexample: the claim says a second access obstacle on the
retried scan is fatal (LockedOut) and is not retried again.  In this run
the environment answers the first two attempts with an obstacle (both
unlocks succeeding) and the third with a normal page: the second
obstacle is retried like the first and the scan still returns the item
list, so no second-obstacle attempt is fatal. -/
theorem getBadges_second_obstacle_retried :
    getBadges 1234 none
        [FetchAttempt.obstacle goodUnlockResp,
         FetchAttempt.obstacle goodUnlockResp,
         FetchAttempt.pages [{ pagelinks := 0, rows := [demoRow] }]] =
      Except.ok [{ appTitle := "Dota 2", appId := 570, leftCards := 3 }] := by
  rfl

/-- C1, amended: getBadges has no retry budget.  Every access obstacle,
also one met on a retried scan, triggers a further unlock-and-restart as
long as a pin is configured and the unlock succeeds: any number of
unlock-succeeding obstacles in front of the environment leaves the
result unchanged.  The scan fails fatally exactly when the pin is absent
or an unlock fails; its attempt count is bounded by the environment, not
by a retry counter in the code. -/
theorem getBadges_retries_every_obstacle (parentalPin : Nat)
    (userGames : Option (List Nat)) (resp : UnlockResponse)
    (env : List FetchAttempt) (n : Nat) (hpin : parentalPin ≠ 0)
    (hunlock : (unlockCookie resp).isSome = true) :
    getBadges parentalPin userGames
        (List.replicate n (FetchAttempt.obstacle resp) ++ env) =
      getBadges parentalPin userGames env := by
  induction n with
  | zero => rfl
  | succ n ih =>
      rcases Option.isSome_iff_exists.mp hunlock with ⟨c, hc⟩
      rw [List.replicate_succ, List.cons_append]
      simp only [getBadges, hpin, if_false, hc]
      exact ih

/-- C1, witness for the amended theorem: two successive obstacles with
successful unlocks in front of a normal attempt change nothing. -/
theorem getBadges_retries_every_obstacle_witness :
    getBadges 1234 none
        (List.replicate 2 (FetchAttempt.obstacle goodUnlockResp) ++
          [FetchAttempt.pages [{ pagelinks := 0, rows := [demoRow] }]]) =
      getBadges 1234 none
        [FetchAttempt.pages [{ pagelinks := 0, rows := [demoRow] }]] :=
  getBadges_retries_every_obstacle 1234 none goodUnlockResp
    [FetchAttempt.pages [{ pagelinks := 0, rows := [demoRow] }]] 2
    (by decide) (by rfl)

/-- C2: when parentalUnlock returns normally with a cookie, that cookie
contains the steamparental marker (it is recognizable as the unlock
credential), the provider reported success, and the cookie is in the
shared cookie store the moment the call returns; the store keeps every
cookie it already held (append-only merge). -/
theorem parentalUnlock_merges_unlock_cookie (jar : List String)
    (resp : UnlockResponse) (c : String)
    (h : (parentalUnlock jar resp).returned = some c) :
    c ∈ (parentalUnlock jar resp).jar ∧
      strContains c "steamparental" = true ∧
      resp.success = true ∧
      ∀ x ∈ jar, x ∈ (parentalUnlock jar resp).jar := by
  have hu : unlockCookie resp = some c := by
    unfold parentalUnlock at h
    cases hr : unlockCookie resp with
    | none => rw [hr] at h; simp at h
    | some cookie => rw [hr] at h; simpa using h
  unfold unlockCookie at hu
  cases hh : resp.setCookieHeader with
  | none => rw [hh] at hu; cases hu
  | some cookies =>
      rw [hh] at hu
      dsimp only at hu
      by_cases hs : resp.success = true
      · rw [if_pos hs] at hu
        have hpred0 := List.find?_some hu
        have hpred : strContains c "steamparental" = true := hpred0
        refine ⟨?_, hpred, hs, ?_⟩
        · unfold parentalUnlock
          cases hr : unlockCookie resp <;>
            simp [hh, List.mem_append, Or.inr (List.mem_of_find?_eq_some hu)]
        · intro x hx
          unfold parentalUnlock
          cases hr : unlockCookie resp <;> simp [List.mem_append, Or.inl hx]
      · rw [if_neg hs] at hu; cases hu

/-- C2, witness: a successful unlock response carrying the parental
cookie leaves that cookie in the shared store on return. -/
theorem parentalUnlock_merges_unlock_cookie_witness :
    "steamparental=abc123; Path=/" ∈
      (parentalUnlock ["sessionid=s"] goodUnlockResp).jar :=
  (parentalUnlock_merges_unlock_cookie ["sessionid=s"] goodUnlockResp
    "steamparental=abc123; Path=/" (by rfl)).1

/-- C3, counterexample: the claim says an item with zero remaining units
never appears in scan output.  The zero-filter of the source is a JS
truthiness test on the digit-stripped STRING (line 248), and the string
0 is truthy: a badges page whose progress text renders the digit 0
yields a successful scan whose single item has leftCards equal to 0. -/
theorem getBadges_emits_zero_leftCards :
    getBadges 0 none [FetchAttempt.pages [{ pagelinks := 0, rows := [zeroRow] }]] =
        Except.ok [{ appTitle := "Some Game", appId := 440, leftCards := 0 }] ∧
      ({ appTitle := "Some Game", appId := 440,
         leftCards := 0 } : GameTradingCards).leftCards = 0 := by
  exact ⟨rfl, rfl⟩

/-- C3, amended: a scan item always carries the decimal value of the
digits in the remaining-count text of its row, and rows whose text holds no
digit at all are never emitted; therefore every item of every successful
scan has leftCards strictly positive PROVIDED the environment never
renders a remaining-count whose digits read zero (the live listing shows
no number on exhausted badges, satisfying this) — a row rendering the
digit 0 is emitted with leftCards 0. -/
theorem getBadges_items_positive (parentalPin : Nat)
    (userGames : Option (List Nat)) (env : List FetchAttempt)
    (l : List GameTradingCards)
    (henv : env.all attemptRendersPositive = true)
    (hres : getBadges parentalPin userGames env = Except.ok l) :
    ∀ g ∈ l, 0 < g.leftCards := by
  induction env with
  | nil => cases hres
  | cons a rest ih =>
      rw [List.all_cons, Bool.and_eq_true] at henv
      cases a with
      | pages served =>
          have hl : scanPages userGames served = l := by
            simpa [getBadges] using hres
          rw [← hl]
          unfold scanPages
          refine scanGo_positive userGames served ?_ 1 1 [] (by simp)
          intro p hp r hr
          have := henv.1
          simp only [attemptRendersPositive, List.all_eq_true] at this
          exact this p hp r hr
      | obstacle resp =>
          unfold getBadges at hres
          by_cases hpin : parentalPin = 0
          · rw [if_pos hpin] at hres; cases hres
          · rw [if_neg hpin] at hres
            cases hc : unlockCookie resp with
            | none => rw [hc] at hres; cases hres
            | some cookie =>
                rw [hc] at hres
                exact ih henv.2 hres

/-- C3, witness for the amended theorem: on a page whose only row renders
three remaining drops, the emitted item is positive. -/
theorem getBadges_items_positive_witness :
    0 < ({ appTitle := "Dota 2", appId := 570,
           leftCards := 3 } : GameTradingCards).leftCards :=
  getBadges_items_positive 0 none
    [FetchAttempt.pages [{ pagelinks := 0, rows := [demoRow] }]]
    [{ appTitle := "Dota 2", appId := 570, leftCards := 3 }]
    (by rfl) (by rfl)
    { appTitle := "Dota 2", appId := 570, leftCards := 3 }
    (by simp)

/-- C5: the scan with a loaded selection returns exactly those discovered
items whose appId is a member of the selection, preserving discovery
order — it equals the unfiltered scan (the scan with no selection
present, which returns every discovered item) filtered by membership,
and errors are unchanged.  This holds for every environment, every pin
and every selection, including the empty one. -/
theorem getBadges_selection_filters_discovered (parentalPin : Nat)
    (s : List Nat) (env : List FetchAttempt) :
    getBadges parentalPin (some s) env =
      Except.map (List.filter (fun g => s.contains g.appId))
        (getBadges parentalPin none env) := by
  induction env with
  | nil => rfl
  | cons a rest ih =>
      cases a with
      | pages served =>
          simp [getBadges, Except.map, scanPages_some_selection]
      | obstacle resp =>
          by_cases hpin : parentalPin = 0
          · simp [getBadges, hpin, Except.map]
          · cases hc : unlockCookie resp with
            | none => simp [getBadges, hpin, hc, Except.map]
            | some cookie => simp [getBadges, hpin, hc, ih]

/-- C4: the games handed to the provider in the activating step are
exactly the first min(27, count) items of the scan result in scan order
(the slice of the first MAX_GAMES_TO_IDLE games at line 327, with no
re-ranking), so the active set never exceeds 27 items; an empty scan
result produces no activating step at all. -/
theorem activeSet_first_min_27 (scanResult idled : List GameTradingCards)
    (h : gamesToIdle scanResult = some idled) :
    idled = scanResult.take (min 27 scanResult.length) ∧
      idled.length = min 27 scanResult.length ∧
      idled.length ≤ 27 ∧
      idleAppIds idled =
        (scanResult.take (min 27 scanResult.length)).map
          (fun g => g.appId) := by
  have htake : idled = scanResult.take 27 := by
    unfold gamesToIdle at h
    split at h
    · cases h
    · cases h
      rfl
  have hmin : scanResult.take 27 = scanResult.take (min 27 scanResult.length) := by
    rcases Nat.le_total 27 scanResult.length with hle | hle
    · rw [Nat.min_eq_left hle]
    · rw [Nat.min_eq_right hle, List.take_of_length_le hle,
        List.take_length]
  constructor
  · rw [htake, hmin]
  constructor
  · rw [htake, List.length_take]
  constructor
  · rw [htake, List.length_take]
    exact Nat.min_le_left _ _
  · rw [htake, hmin]
    rfl

/-- C4, witness: thirty discovered games yield exactly the first 27. -/
theorem activeSet_first_min_27_witness :
    demoGames.take 27 = demoGames.take (min 27 demoGames.length) ∧
      (demoGames.take 27).length = min 27 demoGames.length ∧
      (demoGames.take 27).length ≤ 27 ∧
      idleAppIds (demoGames.take 27) =
        (demoGames.take (min 27 demoGames.length)).map (fun g => g.appId) :=
  activeSet_first_min_27 demoGames (demoGames.take 27) (by rfl)

/-- A farmer state in the private window: profile private, both the
cycle timer (id 0) and the revert timer (id 1) pending. -/
def privateWindowState : FarmerState :=
  { loggedOn := true, readlineOpen := true, profilePrivate := true,
    liveDelay := [0], livePrivacy := [1], handleDelay := some 0,
    handlePrivacy := some 1, fresh := 2 }

/-- C6, counterexample: the claim says close reverts account visibility
to public.  Closing while the profile is private (the revert timer still
pending) cancels that timer and logs off with the profile still private:
no revert is issued and none can fire afterwards. -/
theorem close_leaves_profile_private :
    (closeState privateWindowState).profilePrivate = true ∧
      (closeState privateWindowState).livePrivacy = [] := by
  exact ⟨rfl, rfl⟩

/-- C6, amended: close cancels the stored cycle and revert timers (all
timers, under the single-live-timer invariants), closes the console and
logs the session off, but issues no visibility request: the stored
visibility is unchanged, so the account returns to public only if the
revert timer fired before close. -/
theorem close_cancels_timers_and_logs_off (s : FarmerState)
    (hd : delayInv s) (hp : privacyInv s) :
    (closeState s).liveDelay = [] ∧
      (closeState s).livePrivacy = [] ∧
      (closeState s).loggedOn = false ∧
      (closeState s).readlineOpen = false ∧
      (closeState s).profilePrivate = s.profilePrivate := by
  refine ⟨?_, ?_, rfl, rfl, rfl⟩
  · rcases hd with h | ⟨t, ht, hl⟩
    · simp [closeState, clearTimeoutOn, h]
      cases s.handleDelay <;> simp
    · simp [closeState, clearTimeoutOn, ht, hl]
  · rcases hp with h | ⟨t, ht, hl⟩
    · simp [closeState, clearTimeoutOn, h]
      cases s.handlePrivacy <;> simp
    · simp [closeState, clearTimeoutOn, ht, hl]

/-- C6, witness for the amended theorem: closing right after a successful
enter-private leaves every timer cancelled, the session logged off and
the profile still private. -/
theorem close_cancels_timers_and_logs_off_witness :
    (closeState (setTempProfilePrivacy true true freshFarmerState).1).liveDelay = [] ∧
      (closeState (setTempProfilePrivacy true true freshFarmerState).1).livePrivacy = [] ∧
      (closeState (setTempProfilePrivacy true true freshFarmerState).1).loggedOn = false ∧
      (closeState (setTempProfilePrivacy true true freshFarmerState).1).readlineOpen = false ∧
      (closeState (setTempProfilePrivacy true true freshFarmerState).1).profilePrivate =
        (setTempProfilePrivacy true true freshFarmerState).1.profilePrivate :=
  close_cancels_timers_and_logs_off
    (setTempProfilePrivacy true true freshFarmerState).1
    (Or.inl (by rfl)) (Or.inr ⟨0, by constructor <;> rfl⟩)

/-- C7, counterexample: the claim says a failure while reverting to
public is best-effort and does not log off the session.  A non-success
privacy response in the reverting direction (isPrivate false) logs the
Steam client off and raises the error, exactly as in the entering
direction. -/
theorem revert_failure_logs_off :
    (setTempProfilePrivacy false false freshFarmerState).1.loggedOn = false ∧
      (setTempProfilePrivacy false false freshFarmerState).2 =
        Except.error "unexpected error when setting profile to private!" := by
  exact ⟨rfl, rfl⟩

/-- C7, amended: a failed visibility update is handled identically in
both directions: the session is logged off and the error is raised
whether entering private or reverting to public (in the reverting
direction the raising promise is discarded by the timer callback, so no
caller observes it, but the logoff still happens); a successful update
leaves the session alone and records the requested visibility. -/
theorem privacy_failure_fatal_both_directions (isPrivate : Bool)
    (s : FarmerState) :
    ((setTempProfilePrivacy isPrivate false s).1.loggedOn = false ∧
      (setTempProfilePrivacy isPrivate false s).2 =
        Except.error "unexpected error when setting profile to private!" ∧
      (setTempProfilePrivacy isPrivate false s).1.profilePrivate =
        s.profilePrivate) ∧
    ((setTempProfilePrivacy isPrivate true s).1.loggedOn = s.loggedOn ∧
      (setTempProfilePrivacy isPrivate true s).2 = Except.ok () ∧
      (setTempProfilePrivacy isPrivate true s).1.profilePrivate =
        isPrivate) := by
  cases isPrivate <;>
    exact ⟨⟨rfl, rfl, rfl⟩, ⟨rfl, rfl, rfl⟩⟩

/-- C8, counterexample: the claim says arming a new timer of a given
kind first invalidates any existing live timer of that kind, and that a
revert run invalidates any pending revert timer.  Entering private twice
arms a second revert timeout without any clearTimeout (line 217), so two
revert timers are live at once; when the first of them then fires and
runs its revert, the other pending revert timer is left live. -/
theorem privacy_timer_arming_not_invalidating :
    ((setTempProfilePrivacy true true
        (setTempProfilePrivacy true true freshFarmerState).1).1).livePrivacy =
        [0, 1] ∧
      (privacyTimerFires true 0
        ((setTempProfilePrivacy true true
          (setTempProfilePrivacy true true
            freshFarmerState).1).1)).livePrivacy = [1] := by
  exact ⟨rfl, rfl⟩

/-- C8, amended: the invalidation discipline holds for the cycle timer
only.  Every arming of the cycle timer clears the stored handle first
(lines 335-336) or happens in the callback of the cycle timer that just
fired (line 343), and close clears the stored handle, so from any state
with at most one live cycle timer each of these operations leaves at
most one live cycle timer (exactly one after an arming).  The revert
timer is armed by appending a fresh timeout while every previously live
revert timer stays live: its uniqueness in the running program rests on
the 10 second revert delay elapsing within the 15 minute cycle gap, not
on any invalidation in the code. -/
theorem cycle_timer_cleared_privacy_timer_appended (s : FarmerState)
    (hd : delayInv s) :
    delayInv (clearDelayThenArm s) ∧
      (clearDelayThenArm s).liveDelay.length = 1 ∧
      delayInv (armDelayNoClear
        (delayTimerFires s (s.handleDelay.getD 0))) ∧
      (armDelayNoClear
        (delayTimerFires s (s.handleDelay.getD 0))).liveDelay.length = 1 ∧
      delayInv (closeState s) ∧
      (setTempProfilePrivacy true true s).1.livePrivacy =
        s.livePrivacy ++ [s.fresh] := by
  rcases hd with h | ⟨t, ht, hl⟩
  · refine ⟨?_, ?_, ?_, ?_, ?_, rfl⟩
    · right
      refine ⟨s.fresh, rfl, ?_⟩
      simp [clearDelayThenArm, clearTimeoutOn, h]
      cases s.handleDelay <;> simp
    · simp [clearDelayThenArm, clearTimeoutOn, h]
      cases s.handleDelay <;> simp
    · right
      refine ⟨s.fresh, rfl, ?_⟩
      simp [armDelayNoClear, delayTimerFires, h]
    · simp [armDelayNoClear, delayTimerFires, h]
    · left
      simp [closeState, clearTimeoutOn, h]
      cases s.handleDelay <;> simp
  · refine ⟨?_, ?_, ?_, ?_, ?_, rfl⟩
    · right
      refine ⟨s.fresh, rfl, ?_⟩
      simp [clearDelayThenArm, clearTimeoutOn, ht, hl]
    · simp [clearDelayThenArm, clearTimeoutOn, ht, hl]
    · right
      refine ⟨s.fresh, rfl, ?_⟩
      simp [armDelayNoClear, delayTimerFires, ht, hl]
    · simp [armDelayNoClear, delayTimerFires, ht, hl]
    · left
      simp [closeState, clearTimeoutOn, ht, hl]
  
/-- C8, witness for the amended theorem, at the fresh post-login state:
arming the cycle timer yields exactly one live cycle timer, the
fire-then-arm path yields exactly one, close leaves none, and entering
private appends revert timer id 0. -/
theorem cycle_timer_cleared_privacy_timer_appended_witness :
    delayInv (clearDelayThenArm freshFarmerState) ∧
      (clearDelayThenArm freshFarmerState).liveDelay.length = 1 ∧
      delayInv (armDelayNoClear
        (delayTimerFires freshFarmerState
          (freshFarmerState.handleDelay.getD 0))) ∧
      (armDelayNoClear
        (delayTimerFires freshFarmerState
          (freshFarmerState.handleDelay.getD 0))).liveDelay.length = 1 ∧
      delayInv (closeState freshFarmerState) ∧
      (setTempProfilePrivacy true true freshFarmerState).1.livePrivacy =
        freshFarmerState.livePrivacy ++ [freshFarmerState.fresh] :=
  cycle_timer_cleared_privacy_timer_appended freshFarmerState
    (Or.inl (by rfl))

/-- C9, counterexample: the claim says any capitalization of a valid
state name selects the same persona state.  The source keeps the first
character of the argument as typed and lowercases only the rest, so
Online and ONLINE select the Online state but online selects nothing
(and the camel-case names LookingToTrade and LookingToPlay are never
selectable under any capitalization, their transformed form having no
interior capitals). -/
theorem state_name_lowercase_not_matched :
    findPersonaState "Online" = some ("Online", 1) ∧
      findPersonaState "ONLINE" = some ("Online", 1) ∧
      findPersonaState "online" = none ∧
      findPersonaState "LookingToTrade" = none := by
  exact ⟨rfl, rfl, rfl, rfl⟩

/-- C9, amended: the persona name lookup is case-insensitive in every
character after the first, while the first character is used verbatim:
two arguments sharing their first character as typed and agreeing on the
rest up to ASCII case select the same entry of the enumeration (so a
name matches exactly when its first character equals the first
character of the stored name and the lowercased tail equals the stored
tail). -/
theorem state_match_tail_case_insensitive (a b : String)
    (hhead : a.toList.take 1 = b.toList.take 1)
    (htail : (a.toList.drop 1).map Char.toLower =
      (b.toList.drop 1).map Char.toLower) :
    findPersonaState a = findPersonaState b := by
  have hnorm : normalizePersonaArg a = normalizePersonaArg b := by
    unfold normalizePersonaArg
    cases ha : a.toList with
    | nil =>
        cases hb : b.toList with
        | nil => rfl
        | cons c cs => rw [ha, hb] at hhead; cases hhead
    | cons c cs =>
        cases hb : b.toList with
        | nil => rw [ha, hb] at hhead; cases hhead
        | cons d ds =>
            rw [ha, hb] at hhead htail
            simp only [List.take, List.drop] at hhead htail
            cases hhead
            dsimp only
            rw [htail]
  unfold findPersonaState
  rw [hnorm]

/-- C9, witness for the amended theorem: ONLINE and Online agree after
the first character up to case, so they select the same state. -/
theorem state_match_tail_case_insensitive_witness :
    findPersonaState "ONLINE" = findPersonaState "Online" :=
  state_match_tail_case_insensitive "ONLINE" "Online" (by rfl) (by rfl)

/-- C10: the logOn request built by start uses the constructor-supplied
account name and password whenever they are present and non-empty, the
start arguments being ignored; a start argument takes effect exactly
when the corresponding constructor value is absent or the empty string
(both falsy for the JS logical-or).  The two-factor code is always the
start argument. -/
theorem start_prefers_constructor_credentials
    (ctorName ctorPass argName argPass argCode : Option String) :
    (∀ s : String, ctorName = some s → s ≠ "" →
        (startLogOn ctorName ctorPass argName argPass argCode).accountName =
          some s) ∧
      ((ctorName = none ∨ ctorName = some "") →
        (startLogOn ctorName ctorPass argName argPass argCode).accountName =
          argName) ∧
      (∀ s : String, ctorPass = some s → s ≠ "" →
        (startLogOn ctorName ctorPass argName argPass argCode).password =
          some s) ∧
      ((ctorPass = none ∨ ctorPass = some "") →
        (startLogOn ctorName ctorPass argName argPass argCode).password =
          argPass) ∧
      (startLogOn ctorName ctorPass argName argPass argCode).twoFactorCode =
        argCode := by
  refine ⟨?_, ?_, ?_, ?_, rfl⟩
  · intro s hs hne
    subst hs
    simp [startLogOn, jsOrStr, hne]
  · rintro (h | h) <;> subst h <;> simp [startLogOn, jsOrStr]
  · intro s hs hne
    subst hs
    simp [startLogOn, jsOrStr, hne]
  · rintro (h | h) <;> subst h <;> simp [startLogOn, jsOrStr]

/-- C10, witness: with a constructor account name alice and no
constructor password, start ignores the bob argument for the name and
uses the pw argument for the password. -/
theorem start_prefers_constructor_credentials_witness :
    (startLogOn (some "alice") none (some "bob") (some "pw")
        (some "123")).accountName = some "alice" ∧
      (startLogOn (some "alice") none (some "bob") (some "pw")
        (some "123")).password = some "pw" := by
  constructor
  · exact (start_prefers_constructor_credentials (some "alice") none
      (some "bob") (some "pw") (some "123")).1 "alice" rfl (by decide)
  · exact (start_prefers_constructor_credentials (some "alice") none
      (some "bob") (some "pw") (some "123")).2.2.2.1 (Or.inl rfl)
